import Mathlib

/-!
Shallow embedding of the messagely service core: the `User` model
(`models/user.js`, provided as `src/unnamed/part_000`) and the route
handlers (`src/routes/auth.js`, `src/routes/messages.js`).

Database state is a pair of tables (lists of rows); each SQL statement of
the source is translated to the corresponding pure list operation, with
`current_timestamp` passed in explicitly as a `Nat` clock value.  Thrown
JavaScript exceptions become the `Err` sum type: `ExpressError(message,
status)` values, the relational store's unique-constraint violation, and
the JavaScript `ReferenceError` raised by reading an unbound identifier.
Password hashing and comparison (bcrypt) are opaque primitives, passed as
function parameters.
-/

/-- A row of the `users` table: schema
`users(username PK, password, first_name, last_name, phone, join_at, last_login_at)`. -/
structure UserRow where
  username : String
  password : String
  first_name : String
  last_name : String
  phone : String
  join_at : Nat
  last_login_at : Option Nat
deriving Repr, DecidableEq

/-- A row of the `messages` table: schema
`messages(id PK, from_username FK, to_username FK, body, sent_at, read_at)`. -/
structure MessageRow where
  id : Nat
  from_username : String
  to_username : String
  body : String
  sent_at : Nat
  read_at : Option Nat
deriving Repr, DecidableEq

/-- The relational store's state. -/
structure Db where
  users : List UserRow
  messages : List MessageRow
deriving Repr, DecidableEq

/-- Exceptions the embedded code can throw. -/
inductive Err where
  /-- `new ExpressError(message, status)`. -/
  | express (message : String) (status : Nat)
  /-- the store's unique-constraint violation (surfaced as `ConflictError`). -/
  | conflict
  /-- JavaScript `ReferenceError`: the named identifier is not defined. -/
  | referenceError (name : String)
deriving Repr, DecidableEq

/-- `User.authenticate(username, password)` (part_000 lines 30-44):
`SELECT password FROM users WHERE username = $1`; if a row exists and
`bcrypt.compare(password, user.password)` succeeds, return `true`;
otherwise throw `ExpressError("Invalid username/password", 400)`.
`compare` is the opaque bcrypt comparison. -/
def User.authenticate (compare : String → String → Bool) (db : Db)
    (username password : String) : Except Err Bool :=
  match db.users.find? (fun u => u.username == username) with
  | some user =>
      if compare password user.password then
        Except.ok true
      else
        Except.error (Err.express "Invalid username/password" 400)
  | none => Except.error (Err.express "Invalid username/password" 400)

/-- The `users.username` primary key: an INSERT of a duplicate username
fails with the store's uniqueness violation. Modelled from the spec's
schema (`users(username PK, ...)`) and §4.1 (`ConflictError` "propagated
from the uniqueness constraint"); the store itself (`db.js` and the
migration) is not under src/. -/
def dbInsertUser (db : Db) (row : UserRow) : Except Err Db :=
  if db.users.any (fun u => u.username == row.username) then
    Except.error Err.conflict
  else
    Except.ok { db with users := db.users ++ [row] }

/-- `User.register({username, password, first_name, last_name, phone})`
(part_000 lines 16-25): hash the password with bcrypt, then
`INSERT INTO users ... VALUES ($1,...,current_timestamp) RETURNING username`.
Returns the inserted row's `username` (the single RETURNING column) and the
new store state. `hash` is the opaque salted bcrypt hash at the configured
work factor. -/
def User.register (hash : String → String) (db : Db) (now : Nat)
    (username password first_name last_name phone : String) :
    Except Err (String × Db) := do
  let hashedPassword := hash password
  let db' ← dbInsertUser db
    { username := username, password := hashedPassword,
      first_name := first_name, last_name := last_name, phone := phone,
      join_at := now, last_login_at := none }
  Except.ok (username, db')

/-- `User.updateLoginTimestamp(username)` (part_000 lines 49-59):
`UPDATE users SET last_login_at = current_timestamp WHERE username = $1
RETURNING username`; if no row was updated, throw
`ExpressError("There is no user with username: " + username, 404)`. -/
def User.updateLoginTimestamp (db : Db) (now : Nat) (username : String) :
    Except Err Db :=
  let updated := db.users.map (fun u =>
    if u.username == username then { u with last_login_at := some now } else u)
  if db.users.any (fun u => u.username == username) then
    Except.ok { db with users := updated }
  else
    Except.error
      (Err.express ("There is no user with username: " ++ username) 404)

/-- The three columns `User.all` selects. -/
structure PublicUser where
  first_name : String
  last_name : String
  phone : String
deriving Repr, DecidableEq

/-- The projection performed by `SELECT first_name, last_name, phone`. -/
def publicProj (u : UserRow) : PublicUser :=
  { first_name := u.first_name, last_name := u.last_name, phone := u.phone }

/-- `User.all()` (part_000 lines 65-74):
`SELECT first_name, last_name, phone FROM users ORDER BY first_name`. -/
def User.all (db : Db) : List PublicUser :=
  (db.users.mergeSort (fun a b => a.first_name ≤ b.first_name)).map publicProj

/-- The columns `User.get` selects. -/
structure UserProfileFull where
  username : String
  first_name : String
  last_name : String
  phone : String
  join_at : Nat
  last_login_at : Option Nat
deriving Repr, DecidableEq

/-- `User.get(username)` (part_000 lines 86-100):
`SELECT username, first_name, last_name, phone, join_at, last_login_at
FROM users WHERE username = $1`; throws a 404 `ExpressError` when the
result set is empty, else returns the first row. -/
def User.get (db : Db) (username : String) : Except Err UserProfileFull :=
  match db.users.find? (fun u => u.username == username) with
  | none =>
      Except.error
        (Err.express ("There is no user with username " ++ username) 404)
  | some u =>
      Except.ok
        { username := u.username, first_name := u.first_name,
          last_name := u.last_name, phone := u.phone,
          join_at := u.join_at, last_login_at := u.last_login_at }

/-- The `from_user` object `User.messagesFrom` builds. -/
structure FromUserProfile where
  username : String
  first_name : String
  last_name : String
  phone : String
deriving Repr, DecidableEq

/-- The value `User.messagesFrom` returns. -/
structure MessagesFromResult where
  id : Nat
  from_user : FromUserProfile
  body : String
  sent_at : Nat
  read_at : Option Nat
deriving Repr, DecidableEq

/-- `User.messagesFrom(username)` (part_000 lines 111-143):
`SELECT m.id, m.from_username, u.first_name AS from_first_name, ...
FROM messages as m JOIN users AS u ON m.from_username = u.username
WHERE m.from_username = $1`; takes `rows[0]`, throws a 404 `ExpressError`
when there is none, else returns `{id, from_user, body, sent_at, read_at}`
where `from_user` is built from the joined (sender-side) columns. -/
def User.messagesFrom (db : Db) (username : String) :
    Except Err MessagesFromResult :=
  let rows := (db.messages.filter (fun m => m.from_username == username)).filterMap
    (fun m => (db.users.find? (fun u => u.username == m.from_username)).map
      (fun u => (m, u)))
  match rows with
  | [] =>
      Except.error
        (Err.express ("There are no messages from " ++ username) 404)
  | (m, u) :: _ =>
      Except.ok
        { id := m.id,
          from_user :=
            { username := m.from_username, first_name := u.first_name,
              last_name := u.last_name, phone := u.phone },
          body := m.body, sent_at := m.sent_at, read_at := m.read_at }

/-- The `to_user` object `User.messagesTo` builds.  Its `phone` field is an
`Option`: the source reads `m.phone`, a column the SELECT does not produce,
so the JavaScript value is `undefined`. -/
structure ToUserProfile where
  username : String
  first_name : String
  last_name : String
  phone : Option String
deriving Repr, DecidableEq

/-- The value `User.messagesTo` returns. -/
structure MessagesToResult where
  id : Nat
  to_user : ToUserProfile
  body : String
  sent_at : Nat
  read_at : Option Nat
deriving Repr, DecidableEq

/-- `User.messagesTo(username)` (part_000 lines 154-186):
`SELECT m.id, m.to_username, u.first_name AS to_first_name, ...
FROM messages AS m JOIN users AS u ON m.to_username = u.username
WHERE m.to_username = $1`; takes `rows[0]`, throws a 404 `ExpressError`
when there is none, else returns `{id, to_user, body, sent_at, read_at}`
where `to_user` is built from the joined (recipient-side) columns, with
`phone: m.phone` reading an unselected column (hence `undefined`). -/
def User.messagesTo (db : Db) (username : String) :
    Except Err MessagesToResult :=
  let rows := (db.messages.filter (fun m => m.to_username == username)).filterMap
    (fun m => (db.users.find? (fun u => u.username == m.to_username)).map
      (fun u => (m, u)))
  match rows with
  | [] =>
      Except.error
        (Err.express ("There are no messages to user with username: " ++ username) 404)
  | (m, u) :: _ =>
      Except.ok
        { id := m.id,
          to_user :=
            { username := m.to_username, first_name := u.first_name,
              last_name := u.last_name, phone := none },
          body := m.body, sent_at := m.sent_at, read_at := m.read_at }

/-- A signed JWT as issued by `jwt.sign({username}, SECRET_KEY)`: the
`username` claim together with the signing secret it was signed with. -/
structure SignedToken where
  claim_username : String
  secret : String
deriving Repr, DecidableEq

/-- What an Express handler hands back for one request: a JSON response,
or an error forwarded to `next(err)`. -/
inductive RouteOutcome (α : Type) where
  | json (payload : α)
  | nextErr (e : Err)
deriving Repr, DecidableEq

/-- Modelled from the spec: `middleware/auth.js` (`ensureLoggedIn`) is not
under src/. Per §6 the message routes require a valid token whose sole
claim is `username`; the authenticated principal is that username, and a
request without one fails with a 401-style error before the handler body
runs. -/
def ensureLoggedIn (principal : Option String) : Except Err String :=
  match principal with
  | some uname => Except.ok uname
  | none => Except.error (Err.express "Unauthorized" 401)

/-- The expanded participant profile the Message store returns. -/
structure Profile where
  username : String
  first_name : String
  last_name : String
  phone : String
deriving Repr, DecidableEq

/-- The value `Message.get` returns. -/
structure MessageDetail where
  id : Nat
  body : String
  sent_at : Nat
  read_at : Option Nat
  from_user : Profile
  to_user : Profile
deriving Repr, DecidableEq

/-- The participant profile of a user row. -/
def profileOf (u : UserRow) : Profile :=
  { username := u.username, first_name := u.first_name,
    last_name := u.last_name, phone := u.phone }

/-- Modelled from the spec: `models/message.js` is not under src/.
Per §4.3, `Message.get(id)` returns the full message with both `from_user`
and `to_user` expanded to `{username, first_name, last_name, phone}` via a
join, fails with a 404 `NotFoundError` when the id does not exist, and
performs no authorization check itself ("Authorization contract enforced
by the caller (Request Handler), not this component"). -/
def Message.get (db : Db) (id : Nat) : Except Err MessageDetail :=
  match db.messages.find? (fun m => m.id == id) with
  | none => Except.error (Err.express "Message not found" 404)
  | some m =>
      match db.users.find? (fun u => u.username == m.from_username),
            db.users.find? (fun u => u.username == m.to_username) with
      | some fu, some tu =>
          Except.ok
            { id := m.id, body := m.body, sent_at := m.sent_at,
              read_at := m.read_at,
              from_user := profileOf fu, to_user := profileOf tu }
      | _, _ => Except.error (Err.express "Message not found" 404)

/-- `GET /messages/:id` (messages.js lines 265-274): after `ensureLoggedIn`,
the handler calls `Message.get(req.params.id)` and returns `{message}`.
It never compares the logged-in principal with the message's
`from_user`/`to_user`, despite the comment above it asking for exactly
that check. -/
def getMessageRoute (db : Db) (principal : Option String) (id : Nat) :
    RouteOutcome MessageDetail :=
  match ensureLoggedIn principal with
  | Except.error e => RouteOutcome.nextErr e
  | Except.ok _ =>
      match Message.get db id with
      | Except.ok message => RouteOutcome.json message
      | Except.error e => RouteOutcome.nextErr e

/-- The request body of `POST /register`. -/
structure RegisterBody where
  username : String
  password : String
  first_name : String
  last_name : String
  phone : String
deriving Repr, DecidableEq

/-- `POST /register` (auth.js lines 232-243): `User.register(req.body)`,
then `let token = jwt.sign({username}, SECRET_KEY)`.  The identifier
`username` is not bound anywhere in this handler's scope, so JavaScript
raises `ReferenceError` there; the catch forwards it to `next(err)`, and
neither the token nor the `updateLoginTimestamp` call is ever reached.
The store mutation performed by `User.register` is not rolled back.
Returns the handler's outcome together with the final store state. -/
def registerRoute (hash : String → String) (db : Db) (now : Nat)
    (body : RegisterBody) : RouteOutcome SignedToken × Db :=
  match User.register hash db now body.username body.password
      body.first_name body.last_name body.phone with
  | Except.error e => (RouteOutcome.nextErr e, db)
  | Except.ok (_uname, db') =>
      (RouteOutcome.nextErr (Err.referenceError "username"), db')

/-- `POST /messages/:id/read` (messages.js lines 304-312): after
`ensureLoggedIn`, the handler's `try` block is empty — it calls nothing,
mutates nothing and sends no response (the request is left unanswered, so
the outcome is `none`). -/
def markReadRoute (db : Db) (principal : Option String) (_id : Nat) :
    Option (RouteOutcome MessageDetail) × Db :=
  match ensureLoggedIn principal with
  | Except.error e => (some (RouteOutcome.nextErr e), db)
  | Except.ok _ => (none, db)

/-! ### Concrete sample data used by the evaluation theorems -/

/-- Sample user alice. -/
def userAlice : UserRow :=
  { username := "alice", password := "hash:pw1", first_name := "Alice",
    last_name := "Ames", phone := "111", join_at := 0,
    last_login_at := none }

/-- Sample user bob. -/
def userBob : UserRow :=
  { username := "bob", password := "hash:pw2", first_name := "Bob",
    last_name := "Baker", phone := "222", join_at := 0,
    last_login_at := none }

/-- Sample user eve, a participant of no message. -/
def userEve : UserRow :=
  { username := "eve", password := "hash:pw3", first_name := "Eve",
    last_name := "Evans", phone := "333", join_at := 0,
    last_login_at := none }

/-- Sample message 1, sent by alice to bob. -/
def msgOne : MessageRow :=
  { id := 1, from_username := "alice", to_username := "bob",
    body := "hi", sent_at := 5, read_at := none }

/-- A sample store: three users, one message from alice to bob. -/
def sampleDb : Db :=
  { users := [userAlice, userBob, userEve], messages := [msgOne] }

/-- A sample bcrypt pair: `sampleHash` tags the password, `sampleCompare`
accepts exactly the strings `sampleHash` produces. -/
def sampleHash (p : String) : String := "hash:" ++ p

/-- The comparison matching `sampleHash`. -/
def sampleCompare (p h : String) : Bool := h == "hash:" ++ p

/-- The body of a sample registration request for carol. -/
def regBodyCarol : RegisterBody :=
  { username := "carol", password := "pw4", first_name := "Carol",
    last_name := "Cole", phone := "444" }

/-- The row `User.register` inserts for `regBodyCarol` at time 7. -/
def userCarolRow : UserRow :=
  { username := "carol", password := "hash:pw4", first_name := "Carol",
    last_name := "Cole", phone := "444", join_at := 7,
    last_login_at := none }

/-- C1: the claim says a `GET /messages/:id` request by an authenticated
principal that is neither the sender nor the recipient fails with an
authorization error. On the code it does not: eve is a participant of no
message, yet the handler answers her request for message 1 (alice → bob)
with the full message. -/
theorem getMessageRoute_no_participant_check :
    getMessageRoute sampleDb (some "eve") 1 =
      RouteOutcome.json
        { id := 1, body := "hi", sent_at := 5, read_at := none,
          from_user :=
            { username := "alice", first_name := "Alice",
              last_name := "Ames", phone := "111" },
          to_user :=
            { username := "bob", first_name := "Bob",
              last_name := "Baker", phone := "222" } } := by
  decide

/-- C2: the claim says `POST /register` with a fresh username returns
`{token}` with the registered username as the token's claim. On the code
it never does: registering carol on the sample store persists her row but
the handler then evaluates `jwt.sign({username}, SECRET_KEY)` where
`username` is unbound, so the response is the forwarded `ReferenceError`
and no token is produced. -/
theorem registerRoute_reference_error :
    registerRoute sampleHash sampleDb 7 regBodyCarol =
      (RouteOutcome.nextErr (Err.referenceError "username"),
       { users := [userAlice, userBob, userEve, userCarolRow],
         messages := [msgOne] }) := by
  decide

/-- C3: the claim says `POST /messages/:id/read` by the recipient sets
`read_at` and answers `{message: {id, read_at}}`, and that a non-recipient
fails with an authorization error. On the code the handler body is an
empty stub: for recipient bob and for non-recipient eve alike it sends no
response and leaves the store untouched. -/
theorem markReadRoute_is_stub :
    markReadRoute sampleDb (some "bob") 1 = (none, sampleDb) ∧
    markReadRoute sampleDb (some "eve") 1 = (none, sampleDb) := by
  constructor <;> decide

/-- C5: the claim says the single returned record is expanded with the
counterpart's profile. On the code it is expanded with the queried user's
own profile: for message 1 (alice → bob), `messagesFrom "alice"` returns
`from_user` = alice's profile (the claim expects recipient bob's), and
`messagesTo "bob"` returns `to_user` = bob's profile (the claim expects
sender alice's), with `to_user.phone` additionally `undefined` because the
source reads the unselected column `m.phone`. -/
theorem messagesFromTo_expand_own_profile :
    User.messagesFrom sampleDb "alice" =
      Except.ok
        { id := 1,
          from_user :=
            { username := "alice", first_name := "Alice",
              last_name := "Ames", phone := "111" },
          body := "hi", sent_at := 5, read_at := none } ∧
    User.messagesTo sampleDb "bob" =
      Except.ok
        { id := 1,
          to_user :=
            { username := "bob", first_name := "Bob",
              last_name := "Baker", phone := none },
          body := "hi", sent_at := 5, read_at := none } := by
  exact ⟨rfl, rfl⟩

/-- In a user table with pairwise-distinct usernames (the PK invariant),
`find?` on a username returns exactly the member carrying it. -/
theorem find?_username_eq (l : List UserRow) (username : String)
    (huniq : l.Pairwise (fun a b => a.username ≠ b.username))
    (u : UserRow) (hmem : u ∈ l) (hu : u.username = username) :
    l.find? (fun v => v.username == username) = some u := by
  induction l with
  | nil => cases hmem
  | cons a t ih =>
      rcases List.mem_cons.mp hmem with rfl | hmem'
      · exact List.find?_cons_of_pos _ (by simpa using hu)
      · have ha : a.username ≠ username := by
          have h1 := (List.pairwise_cons.mp huniq).1 u hmem'
          rw [hu] at h1
          exact h1
        rw [List.find?_cons_of_neg _ (by simpa using ha)]
        exact ih (List.pairwise_cons.mp huniq).2 hmem'

/-- C4: `authenticate` returns `true` exactly when the user exists and the
supplied password compares against the stored hash; every run either
returns `true` or throws the single fixed
`ExpressError("Invalid username/password", 400)`, so a nonexistent user
and a wrong password are indistinguishable to the caller. The hypothesis
is the store's primary-key invariant. -/
theorem authenticate_spec (compare : String → String → Bool) (db : Db)
    (username password : String)
    (huniq : db.users.Pairwise (fun a b => a.username ≠ b.username)) :
    (User.authenticate compare db username password = Except.ok true ↔
      ∃ u ∈ db.users, u.username = username ∧
        compare password u.password = true) ∧
    (User.authenticate compare db username password = Except.ok true ∨
      User.authenticate compare db username password =
        Except.error (Err.express "Invalid username/password" 400)) := by
  constructor
  · constructor
    · intro h
      unfold User.authenticate at h
      cases hf : db.users.find? (fun v => v.username == username) with
      | none => rw [hf] at h; exact absurd h (by simp)
      | some u =>
          rw [hf] at h
          by_cases hc : compare password u.password
          · refine ⟨u, List.mem_of_find?_eq_some hf, ?_, hc⟩
            simpa using List.find?_some hf
          · simp [hc] at h
    · rintro ⟨u, hmem, huser, hc⟩
      unfold User.authenticate
      rw [find?_username_eq db.users username huniq u hmem huser]
      simp [hc]
  · unfold User.authenticate
    cases hf : db.users.find? (fun v => v.username == username) with
    | none => exact Or.inr rfl
    | some u =>
        by_cases hc : compare password u.password
        · exact Or.inl (by simp [hc])
        · exact Or.inr (by simp [hc])

/-- Witness for C4: on the sample store, alice with her correct password
authenticates to `true`. -/
theorem authenticate_spec_witness :
    User.authenticate sampleCompare sampleDb "alice" "pw1" = Except.ok true :=
  (authenticate_spec sampleCompare sampleDb "alice" "pw1" (by decide)).1.mpr
    ⟨userAlice, by decide, by decide, by decide⟩

/-- The row update `User.updateLoginTimestamp` applies to the table. -/
def setLoginAt (username : String) (t : Nat) (u : UserRow) : UserRow :=
  if u.username == username then { u with last_login_at := some t } else u

/-- A successful `updateLoginTimestamp` run determines the new state: the
matching rows carry the new timestamp, the rest are untouched. -/
theorem updateLoginTimestamp_ok_eq (db db' : Db) (t : Nat) (username : String)
    (h : User.updateLoginTimestamp db t username = Except.ok db') :
    db' = { db with users := db.users.map (setLoginAt username t) } := by
  by_cases hany : db.users.any (fun v => v.username == username) = true
  · simp only [User.updateLoginTimestamp, hany, if_true] at h
    have hinj : ({ db with users := db.users.map (setLoginAt username t) } : Db) = db' :=
      Except.ok.inj h
    rw [← hinj]
  · simp only [User.updateLoginTimestamp, hany] at h
    simp at h

/-- When no row matches, `updateLoginTimestamp` throws the 404 error and
the UPDATE touches no row. -/
theorem updateLoginTimestamp_notfound (d : Db) (t : Nat) (name : String)
    (hno : ∀ u ∈ d.users, u.username ≠ name) :
    User.updateLoginTimestamp d t name =
      Except.error
        (Err.express ("There is no user with username: " ++ name) 404) ∧
    d.users.map (setLoginAt name t) = d.users := by
  have hany : d.users.any (fun v => v.username == name) = false := by
    rw [List.any_eq_false]
    intro u hu
    simpa using hno u hu
  constructor
  · simp only [User.updateLoginTimestamp, hany]
    simp
  · have : d.users.map (setLoginAt name t) = d.users.map id := by
      refine List.map_congr_left ?_
      intro a ha
      have : (a.username == name) = false := by simpa using hno a ha
      simp [setLoginAt, this]
    simpa using this

/-- Rows of the updated table that carry the target username hold the new
timestamp. -/
theorem mem_updated_login (db db' : Db) (t : Nat) (username : String)
    (h : User.updateLoginTimestamp db t username = Except.ok db')
    (u : UserRow) (hm : u ∈ db'.users) (hu : u.username = username) :
    u.last_login_at = some t := by
  rw [updateLoginTimestamp_ok_eq db db' t username h] at hm
  obtain ⟨v, _hv, rfl⟩ := List.mem_map.mp hm
  unfold setLoginAt
  by_cases hc : (v.username == username) = true
  · simp [hc]
  · unfold setLoginAt at hu
    rw [if_neg (by simpa using hc)] at hu ⊢
    exact absurd hu (by simpa using hc)

/-- C6: two successive `updateLoginTimestamp` calls on an existing user,
at clock values `t1 < t2`, leave the stored `last_login_at` at `some t1`
and then `some t2` — strictly increasing it — while for a username that
matches no user the call throws the 404 `ExpressError` and the UPDATE
modifies no row. -/
theorem updateLoginTimestamp_spec (db db1 db2 : Db) (t1 t2 : Nat)
    (username : String) (u1 u2 : UserRow)
    (ht : t1 < t2)
    (h1 : User.updateLoginTimestamp db t1 username = Except.ok db1)
    (h2 : User.updateLoginTimestamp db1 t2 username = Except.ok db2)
    (hm1 : u1 ∈ db1.users) (hu1 : u1.username = username)
    (hm2 : u2 ∈ db2.users) (hu2 : u2.username = username) :
    u1.last_login_at = some t1 ∧
    u2.last_login_at = some t2 ∧
    (∃ a b, u1.last_login_at = some a ∧ u2.last_login_at = some b ∧ a < b) ∧
    (∀ (d : Db) (t : Nat) (name : String),
      (∀ u ∈ d.users, u.username ≠ name) →
      User.updateLoginTimestamp d t name =
        Except.error
          (Err.express ("There is no user with username: " ++ name) 404) ∧
      d.users.map (setLoginAt name t) = d.users) := by
  have e1 := mem_updated_login db db1 t1 username h1 u1 hm1 hu1
  have e2 := mem_updated_login db1 db2 t2 username h2 u2 hm2 hu2
  exact ⟨e1, e2, ⟨t1, t2, e1, e2, ht⟩,
    fun d t name hno => updateLoginTimestamp_notfound d t name hno⟩

/-- The sample store after alice logs in at clock value 1. -/
def sampleDbLoginOnce : Db :=
  { users := [{ userAlice with last_login_at := some 1 }, userBob, userEve],
    messages := [msgOne] }

/-- The sample store after alice logs in again at clock value 2. -/
def sampleDbLoginTwice : Db :=
  { users := [{ userAlice with last_login_at := some 2 }, userBob, userEve],
    messages := [msgOne] }

/-- Witness for C6: instantiated on the sample store — alice's two logins
at clocks 1 and 2, and the 404 branch for the unknown username zed. -/
theorem updateLoginTimestamp_spec_witness :
    User.updateLoginTimestamp sampleDb 9 "zed" =
      Except.error
        (Err.express ("There is no user with username: " ++ "zed") 404) :=
  ((updateLoginTimestamp_spec sampleDb sampleDbLoginOnce sampleDbLoginTwice
      1 2 "alice"
      { userAlice with last_login_at := some 1 }
      { userAlice with last_login_at := some 2 }
      (by decide) rfl rfl
      (by decide) (by decide) (by decide) (by decide)).2.2.2
    sampleDb 9 "zed" (by decide)).1

/-- C7: `all()` returns exactly one `{first_name, last_name, phone}`
record per stored user (a permutation of the projected table, hence
covering all users), sorted ascending by `first_name`; the projection is
independent of the stored password hash, so no returned record carries
it. -/
theorem all_spec (db : Db) :
    List.Perm (User.all db) (db.users.map publicProj) ∧
    List.Pairwise
      (fun a b : PublicUser => a.first_name ≤ b.first_name) (User.all db) ∧
    (User.all db).length = db.users.length ∧
    ∀ (u : UserRow) (p : String),
      publicProj { u with password := p } = publicProj u := by
  unfold User.all
  refine ⟨(List.mergeSort_perm db.users _).map publicProj, ?_, ?_,
    fun u p => rfl⟩
  · have htrans : ∀ (a b c : UserRow),
        decide (a.first_name ≤ b.first_name) = true →
        decide (b.first_name ≤ c.first_name) = true →
        decide (a.first_name ≤ c.first_name) = true := by
      intro a b c hab hbc
      rw [decide_eq_true_eq] at hab hbc ⊢
      exact le_trans hab hbc
    have htotal : ∀ (a b : UserRow),
        (decide (a.first_name ≤ b.first_name) ||
          decide (b.first_name ≤ a.first_name)) = true := by
      intro a b
      rcases le_total a.first_name b.first_name with h | h
      · simp [h]
      · simp [h]
    have hs := List.sorted_mergeSort htrans htotal db.users
    refine List.Pairwise.map publicProj ?_ hs
    intro a b hab
    simpa [publicProj] using hab
  · simp

/-- Witness for C7: the sample store's directory listing is a permutation
of its projected user table. -/
theorem all_spec_witness :
    List.Perm (User.all sampleDb) (sampleDb.users.map publicProj) :=
  (all_spec sampleDb).1

/-- The row the registration INSERT creates. -/
def registeredRow (hash : String → String) (now : Nat)
    (username password first_name last_name phone : String) : UserRow :=
  { username := username, password := hash password,
    first_name := first_name, last_name := last_name, phone := phone,
    join_at := now, last_login_at := none }

/-- `find?` skips a prefix on which the predicate fails. -/
theorem find?_append_of_none {p : UserRow → Bool} (l1 l2 : List UserRow)
    (h : ∀ a ∈ l1, p a = false) :
    (l1 ++ l2).find? p = l2.find? p := by
  induction l1 with
  | nil => rfl
  | cons a t ih =>
      rw [List.cons_append,
        List.find?_cons_of_neg _ (by simp [h a (List.mem_cons_self a t)])]
      exact ih (fun x hx => h x (List.mem_cons_of_mem a hx))

/-- C8: on a store where the username is free, `register` succeeds,
appending exactly the hashed row; the created user is then retrievable
via `get` (without the password hash); and any second `register` of the
same username fails with the store's uniqueness violation
(`ConflictError`). -/
theorem register_get_conflict (hash : String → String) (db : Db) (now : Nat)
    (username password first_name last_name phone : String)
    (hfree : ∀ u ∈ db.users, u.username ≠ username) :
    User.register hash db now username password first_name last_name phone =
      Except.ok (username,
        { db with users := db.users ++
            [registeredRow hash now username password first_name last_name phone] }) ∧
    User.get
        { db with users := db.users ++
            [registeredRow hash now username password first_name last_name phone] }
        username =
      Except.ok
        { username := username, first_name := first_name,
          last_name := last_name, phone := phone,
          join_at := now, last_login_at := none } ∧
    (∀ (now2 : Nat) (p2 f2 l2 ph2 : String),
      User.register hash
          { db with users := db.users ++
              [registeredRow hash now username password first_name last_name phone] }
          now2 username p2 f2 l2 ph2 =
        Except.error Err.conflict) := by
  have hany : db.users.any (fun u => u.username == username) = false := by
    rw [List.any_eq_false]
    intro u hu
    simpa using hfree u hu
  refine ⟨?_, ?_, ?_⟩
  · simp only [User.register, dbInsertUser, hany, Bool.false_eq_true,
      if_false, registeredRow]
    rfl
  · have hnone : db.users.find? (fun u => u.username == username) = none := by
      rw [List.find?_eq_none]
      intro u hu
      simpa using hfree u hu
    simp [User.get, hnone, registeredRow]
  · intro now2 p2 f2 l2 ph2
    have hany2 :
        (db.users ++
          [registeredRow hash now username password first_name last_name phone]).any
            (fun u => u.username == username) = true := by
      rw [List.any_eq_true]
      exact ⟨registeredRow hash now username password first_name last_name phone,
        List.mem_append_right _ (List.mem_singleton_self _),
        by simp [registeredRow]⟩
    simp only [User.register, dbInsertUser, hany2, if_true]
    rfl

/-- Witness for C8: carol's first registration on the sample store
succeeds and a second one conflicts. -/
theorem register_get_conflict_witness :
    User.register sampleHash sampleDb 7 "carol" "pw4" "Carol" "Cole" "444" =
      Except.ok ("carol",
        { sampleDb with users := sampleDb.users ++
            [registeredRow sampleHash 7 "carol" "pw4" "Carol" "Cole" "444"] }) ∧
    User.register sampleHash
        { sampleDb with users := sampleDb.users ++
            [registeredRow sampleHash 7 "carol" "pw4" "Carol" "Cole" "444"] }
        8 "carol" "other" "C" "C" "0" =
      Except.error Err.conflict :=
  ⟨(register_get_conflict sampleHash sampleDb 7 "carol" "pw4" "Carol" "Cole"
      "444" (by decide)).1,
   (register_get_conflict sampleHash sampleDb 7 "carol" "pw4" "Carol" "Cole"
      "444" (by decide)).2.2 8 "other" "C" "C" "0"⟩

/-- C9: for a username with no message in the queried direction,
`messagesFrom` and `messagesTo` do not produce an empty result: each
throws its 404 `ExpressError`. -/
theorem messages_empty_404 (db : Db) (username : String) :
    ((∀ m ∈ db.messages, m.from_username ≠ username) →
      User.messagesFrom db username =
        Except.error
          (Err.express ("There are no messages from " ++ username) 404)) ∧
    ((∀ m ∈ db.messages, m.to_username ≠ username) →
      User.messagesTo db username =
        Except.error
          (Err.express
            ("There are no messages to user with username: " ++ username) 404)) := by
  constructor
  · intro h
    have hf : db.messages.filter (fun m => m.from_username == username) = [] := by
      rw [List.filter_eq_nil_iff]
      intro m hm
      simpa using h m hm
    simp [User.messagesFrom, hf]
  · intro h
    have ht : db.messages.filter (fun m => m.to_username == username) = [] := by
      rw [List.filter_eq_nil_iff]
      intro m hm
      simpa using h m hm
    simp [User.messagesTo, ht]

/-- Witness for C9: in the sample store bob has sent nothing and alice has
received nothing (each has a message in the other direction), so the
queried-direction 404 is thrown in both cases. -/
theorem messages_empty_404_witness :
    User.messagesFrom sampleDb "bob" =
      Except.error
        (Err.express ("There are no messages from " ++ "bob") 404) ∧
    User.messagesTo sampleDb "alice" =
      Except.error
        (Err.express
          ("There are no messages to user with username: " ++ "alice") 404) :=
  ⟨(messages_empty_404 sampleDb "bob").1 (by decide),
   (messages_empty_404 sampleDb "alice").2 (by decide)⟩

/-- C10: the register route is not atomic. Whenever `User.register`
succeeds (the username was free), the later `jwt.sign({username}, ...)`
step throws its `ReferenceError`, so the request is answered with an
error — yet the final store state still contains the row just created;
nothing rolls the INSERT back. -/
theorem registerRoute_not_atomic (hash : String → String) (db : Db)
    (now : Nat) (body : RegisterBody)
    (hfree : ∀ u ∈ db.users, u.username ≠ body.username) :
    registerRoute hash db now body =
      (RouteOutcome.nextErr (Err.referenceError "username"),
       { db with users := db.users ++
           [registeredRow hash now body.username body.password
             body.first_name body.last_name body.phone] }) ∧
    (registeredRow hash now body.username body.password
        body.first_name body.last_name body.phone).username = body.username ∧
    registeredRow hash now body.username body.password
        body.first_name body.last_name body.phone ∈
      db.users ++
        [registeredRow hash now body.username body.password
          body.first_name body.last_name body.phone] := by
  have hreg := (register_get_conflict hash db now body.username body.password
    body.first_name body.last_name body.phone hfree).1
  refine ⟨?_, rfl, List.mem_append_right _ (List.mem_singleton_self _)⟩
  simp [registerRoute, hreg]

/-- Witness for C10: carol's registration request on the sample store is
answered with the forwarded `ReferenceError`, yet her row is persisted. -/
theorem registerRoute_not_atomic_witness :
    registerRoute sampleHash sampleDb 7 regBodyCarol =
      (RouteOutcome.nextErr (Err.referenceError "username"),
       { sampleDb with users := sampleDb.users ++
           [registeredRow sampleHash 7 "carol" "pw4" "Carol" "Cole" "444"] }) :=
  (registerRoute_not_atomic sampleHash sampleDb 7 regBodyCarol (by decide)).1
